import Mathlib

/-!
Shallow embedding of the browser dashboard widget `src/static/wpbot.js`.

The script polls a metrics endpoint, renders the returned snapshot into
HTML template strings, and wires lazy-build/toggle click handlers onto
profile rows.  Pure template functions are embedded as Lean functions on
`String`; JavaScript truthiness of optional fields (`x || d`, `x ? a : b`)
is embedded by `jsOrStr` / `jsOrInt` / `jsStrTruthy`; DOM state touched by
the click handler is embedded as a list of body elements with an id, an
innerHTML string and a `hidden` class flag.
-/

namespace Wpbot

/-- MetricsSnapshot fields as the script reads them (spec section 3).
Numeric fields are JS numbers used only via interpolation; profiles may be
absent (the script guards with `data.profiles || []`). -/
structure Window where
  title : Option String
  url : Option String
  wa_ready : Bool
  last_seen : Option String
deriving DecidableEq

structure Profile where
  key : String
  ready : Bool
  path : Option String
  pid : Option Int
  last_seen : Option String
  windows : Option (List Window)
deriving DecidableEq

structure MetricsSnapshot where
  wa_ready : Bool
  prof_ready : Int
  prof_total : Int
  queued_jobs : Int
  running_jobs : Int
  pending_targets : Int
  profiles : Option (List Profile)
deriving DecidableEq

/-- JS `s || d` for an optional string field: absent and the falsy empty
string both fall back to the default. -/
def jsOrStr : Option String → String → String
  | none, d => d
  | some s, d => if s = "" then d else s

/-- JS `n || d` for an optional numeric field: absent and the falsy 0 both
fall back to the default; otherwise the number is interpolated. -/
def jsOrInt : Option Int → String → String
  | none, d => d
  | some n, d => if n = 0 then d else toString n

/-- JS truthiness of an optional string (`w.url ? a : b`). -/
def jsStrTruthy : Option String → Bool
  | none => false
  | some s => s != ""

/-- JS `data.profiles || []` (an array, even empty, is truthy; absent is
falsy). -/
def jsProfiles : Option (List Profile) → List Profile
  | none => []
  | some ps => ps

/-- Character class `[a-zA-Z0-9_-]` of the sanitizing regex in `cssSafe`. -/
def isSafeChar (c : Char) : Bool :=
  ('a' ≤ c && c ≤ 'z') || ('A' ≤ c && c ≤ 'Z') || ('0' ≤ c && c ≤ '9')
    || c == '_' || c == '-'

/-- One step of `String(s).replace(/[^a-zA-Z0-9_-]/g, "_")`. -/
def sanitizeChar (c : Char) : Char :=
  if isSafeChar c then c else '_'

/-- Embedding of `cssSafe` (wpbot.js lines 7-9): replace every character outside
`[a-zA-Z0-9_-]` with an underscore. -/
def cssSafe (s : String) : String :=
  String.mk (s.data.map sanitizeChar)

/-- Embedding of `statusBadge` (lines 11-15): `String(ok).toLowerCase()` interpolated in
a span with an ok/warn class and an icon. -/
def statusBadge (ok : Bool) : String :=
  let cls := if ok then "ok" else "warn"
  let icon := if ok then "✅" else "⏳"
  icon ++ " <span class=\"" ++ cls ++ "\">"
    ++ (if ok then "true" else "false") ++ "</span>"

/-- The window-title expression of line 27:
`w.title || ('Window ' + (idx+1))` with `idx` the 0-based forEach index. -/
def windowLabel (idx : Nat) (w : Window) : String :=
  jsOrStr w.title ("Window " ++ toString (idx + 1))

/-- One iteration of the `windows.forEach` body (lines 23-41): the
acc-item markup appended for window `w` at 0-based index `idx`. -/
def windowEntryHTML (idx : Nat) (w : Window) : String :=
  let title := "\n        <div class=\"acc-title\">\n          <span class=\"dot "
    ++ (if w.wa_ready then "ok" else "warn")
    ++ "\"></span>\n          <span>" ++ windowLabel idx w
    ++ "</span>\n        </div>"
  let meta := if jsStrTruthy w.url then
      "<div class=\"acc-meta\"><code>" ++ w.url.getD "" ++ "</code></div>"
    else "<div class=\"acc-meta\"></div>"
  "\n        <div class=\"acc-item\">\n          <div class=\"acc-header\">"
    ++ title ++ meta
    ++ "</div>\n          <div class=\"acc-body\">\n            <div class=\"kv\">\n              <div>WA Ready</div><div>"
    ++ statusBadge w.wa_ready
    ++ "</div>\n              <div>Title</div><div>" ++ jsOrStr w.title "-"
    ++ "</div>\n              <div>URL</div><div>" ++ jsOrStr w.url "-"
    ++ "</div>\n              <div>Last Seen</div><div>" ++ jsOrStr w.last_seen "-"
    ++ "</div>\n            </div>\n          </div>\n        </div>"

/-- Embedding of `renderWindowsHTML` (lines 18-45): hint when the list is absent or
empty, else an accordion of window entries. -/
def renderWindowsHTML (windows : Option (List Window)) : String :=
  match windows with
  | none => "<div class=\"hint\">Bu profil için pencere/sekme verisi yok.</div>"
  | some [] => "<div class=\"hint\">Bu profil için pencere/sekme verisi yok.</div>"
  | some ws =>
    (ws.enum.foldl (fun acc x => acc ++ windowEntryHTML x.1 x.2)
      "<div class=\"accordion nested\">") ++ "</div>"

/-- Embedding of `buildProfileBodyHTML` (lines 47-58). -/
def buildProfileBodyHTML (p : Profile) : String :=
  "\n      <div class=\"kv\">\n        <div>Ready</div><div>"
    ++ statusBadge p.ready
    ++ "</div>\n        <div>Path</div><div>" ++ jsOrStr p.path "-"
    ++ "</div>\n        <div>PID</div><div>" ++ jsOrInt p.pid "-"
    ++ "</div>\n        <div>Last Seen</div><div>" ++ jsOrStr p.last_seen "-"
    ++ "</div>\n      </div>\n      <div style=\"margin-top:8px;font-weight:600;\">Windows / Tabs</div>\n      "
    ++ renderWindowsHTML p.windows ++ "\n    "

/-- One iteration of the `profiles.forEach` body of
`buildProfilesPanelHTML` (lines 64-77). -/
def profileItemHTML (p : Profile) : String :=
  "\n        <div class=\"profile-item\">\n          <div class=\"profile-summary\" data-key=\""
    ++ p.key
    ++ "\">\n            <div class=\"profile-left\">\n              <span class=\"dot "
    ++ (if p.ready then "ok" else "warn")
    ++ "\"></span>\n              <span>" ++ p.key
    ++ "</span>\n            </div>\n            <div class=\"profile-right\">"
    ++ (if p.ready then "ready" else "not ready")
    ++ "</div>\n          </div>\n          <div class=\"details-body hidden\" id=\"body-"
    ++ cssSafe p.key
    ++ "\"></div>\n        </div>\n      "

/-- Embedding of `buildProfilesPanelHTML` (lines 60-79). -/
def buildProfilesPanelHTML (data : MetricsSnapshot) : String :=
  let profiles := jsProfiles data.profiles
  if profiles.length = 0 then "<div class=\"hint\">Hiç profil yok.</div>"
  else profiles.foldl (fun acc p => acc ++ profileItemHTML p) ""

/-- Embedding of `renderSummaryMonoBox` (lines 100-125). -/
def renderSummaryMonoBox (data : MetricsSnapshot) : String :=
  let readyStr := toString data.prof_ready ++ "/" ++ toString data.prof_total ++ " ready"
  let kv := "\n      <div class=\"mono-kv\">\n        <div>WhatsApp Ready</div><div>"
    ++ (if data.wa_ready then "✅ true" else "⏳ false")
    ++ "</div>\n        <div>Profiles</div><div>" ++ readyStr
    ++ "</div>\n        <div>Queued Jobs</div><div>" ++ toString data.queued_jobs
    ++ "</div>\n        <div>Running Jobs</div><div>" ++ toString data.running_jobs
    ++ "</div>\n        <div>Pending Targets</div><div>" ++ toString data.pending_targets
    ++ "</div>\n      </div>\n    "
  "\n      <div class=\"mono-card\">\n        <div class=\"mono-header\">\n          <div class=\"mono-title\">Aktif WP / Toplam Profil</div>\n          <div class=\"mono-right\">"
    ++ readyStr
    ++ "</div>\n        </div>\n        <div class=\"mono-divider\"></div>\n        "
    ++ kv
    ++ "\n        <div class=\"mono-footer\">\n          <button id=\"profilesToggle\" class=\"btn\">Profilleri Göster ▾</button>\n        </div>\n        <div id=\"profiles-panel\" class=\"profiles-panel hidden\"></div>\n      </div>\n    "

/-- A details-body element of the profiles panel: its DOM id, its
innerHTML and whether it carries the `hidden` class. -/
structure BodyEl where
  id : String
  content : String
  hidden : Bool
deriving DecidableEq

/-- JS `String.prototype.trim` modelled on the character list: strip
whitespace from both ends. -/
def jsTrim (s : String) : String :=
  String.mk (((s.data.dropWhile Char.isWhitespace).reverse.dropWhile
    Char.isWhitespace).reverse)

/-- The details-body elements produced by `buildProfilesPanelHTML`
line 74: one per profile, in list order, empty and hidden. -/
def initBodies (ps : List Profile) : List BodyEl :=
  ps.map (fun p => { id := "body-" ++ cssSafe p.key, content := "", hidden := true })

/-- Embedding of `container.querySelector` on a body id: the first element whose id
matches, if any. -/
def findBody : List BodyEl → String → Option BodyEl
  | [], _ => none
  | b :: bs, i => if b.id = i then some b else findBody bs i

/-- Mutation of the element `querySelector` returned: the first element
whose id matches is replaced by `f` of it. -/
def updateFirstBody (f : BodyEl → BodyEl) : List BodyEl → String → List BodyEl
  | [], _ => []
  | b :: bs, i => if b.id = i then f b :: bs else b :: updateFirstBody f bs i

/-- Lines 90-94 of the click handler, applied to the found body: build the
content when its trimmed innerHTML is empty, then toggle the hidden
class. -/
def bodyStep (prof : Profile) (b : BodyEl) : BodyEl :=
  let b1 := if jsTrim b.content = "" then
      { b with content := buildProfileBodyHTML prof } else b
  { b1 with hidden := !b1.hidden }

/-- The click listener attached by `attachProfileToggles` (lines 83-95)
firing on the row whose `data-key` is `key`: look the body element up by
sanitized id (early return when absent), look the profile up by raw key
(early return when absent), else lazily build and toggle. -/
def clickProfileRow (data : MetricsSnapshot) (bodies : List BodyEl)
    (key : String) : List BodyEl :=
  let tid := "body-" ++ cssSafe key
  match findBody bodies tid with
  | none => bodies
  | some _ =>
    match (jsProfiles data.profiles).find? (fun p => decide (p.key = key)) with
    | none => bodies
    | some prof => updateFirstBody (bodyStep prof) bodies tid

/-- A sequence of row clicks starting from panel state `s`. -/
def performClicksFrom (data : MetricsSnapshot) (s : List BodyEl)
    (ks : List String) : List BodyEl :=
  ks.foldl (clickProfileRow data) s

/-- A sequence of row clicks on a freshly built panel. -/
def performClicks (data : MetricsSnapshot) (ks : List String) : List BodyEl :=
  performClicksFrom data (initBodies (jsProfiles data.profiles)) ks

/-- Derived description of one profile's own body element after a click
sequence `ks`: content built exactly when its raw key has been clicked,
hidden class toggled once per click of its raw key. -/
def profileBodyState (ks : List String) (p : Profile) : BodyEl :=
  { id := "body-" ++ cssSafe p.key,
    content := if p.key ∈ ks then buildProfileBodyHTML p else "",
    hidden := decide (ks.count p.key % 2 = 0) }

/-- Derived description of the panel state after a click sequence `ks`. -/
def panelState (ps : List Profile) (ks : List String) : List BodyEl :=
  ps.map (profileBodyState ks)

/-- No two profiles sanitize to the same DOM-id fragment. -/
def KeyDistinct (ps : List Profile) : Prop :=
  List.Pairwise (fun a b => cssSafe a.key ≠ cssSafe b.key) ps

instance (ps : List Profile) : Decidable (KeyDistinct ps) :=
  List.instDecidablePairwise ps

/-- Outcome of the awaited `fetch` call of one poll cycle: either the
promise rejects (network error, with the error message displayed), or a
response arrives with a status and a `res.json()` result (parsed
snapshot, or a parse-error message). -/
inductive FetchEvent where
  | networkFail (msg : String)
  | response (status : Nat) (body : Except String MetricsSnapshot)

/-- Embedding of `Response.ok` of the fetch API: status in the inclusive range 200-299. -/
def resOk (status : Nat) : Bool :=
  200 ≤ status && status ≤ 299

/-- Which path the try/catch of `fetchAndRender` (lines 151-160) takes:
`rendered` when `renderAll(data)` runs, `errored` when the catch block
runs with the given displayed reason. -/
inductive PollOutcome where
  | rendered (data : MetricsSnapshot)
  | errored (msg : String)
deriving DecidableEq

/-- Boolean test for the failure path. -/
def isErroredOutcome : PollOutcome → Bool
  | .rendered _ => false
  | .errored _ => true

/-- The control flow of `fetchAndRender`: a rejected fetch lands in the
catch; `!res.ok` throws `HTTP <status>` into the catch; a `res.json()`
failure lands in the catch; otherwise `renderAll` runs on the parsed
data. -/
def pollOutcome : FetchEvent → PollOutcome
  | .networkFail msg => .errored msg
  | .response st body =>
    if resOk st then
      match body with
      | .ok data => .rendered data
      | .error msg => .errored msg
    else .errored ("HTTP " ++ toString st)

/-- The error hint written by line 158. -/
def errorHint (msg : String) : String :=
  "<div class=\"hint\">Metrikler alınamadı: " ++ msg ++ "</div>"

/-- The live region content after `renderAll` (lines 127-149): innerHTML
is cleared and the wrapper div created by `document.createElement('div')`
holding `renderSummaryMonoBox(data)` is appended. -/
def renderAllLive (data : MetricsSnapshot) : String :=
  "<div>" ++ renderSummaryMonoBox data ++ "</div>"

/-- The live region content after one poll cycle with previous content
`prev`: both branches assign `liveEl.innerHTML`, so the previous content
is discarded either way. -/
def liveAfterPoll (_prev : String) (e : FetchEvent) : String :=
  match pollOutcome e with
  | .rendered data => renderAllLive data
  | .errored msg => errorHint msg

/-- Embedding of `window.WPBOT`, holding the optional endpoint override field. -/
structure WpbotConfig where
  METRICS_URL : Option String
deriving DecidableEq

/-- Line 2: `(window.WPBOT && window.WPBOT.METRICS_URL) || "/metrics"`,
a module-level const evaluated once when the script loads. -/
def metricsURL (wpbot : Option WpbotConfig) : String :=
  match wpbot with
  | none => "/metrics"
  | some c =>
    match c.METRICS_URL with
    | none => "/metrics"
    | some s => if s = "" then "/metrics" else s

/-- The URL the fetch of poll number `n` requests: every call of
`fetchAndRender` closes over the same `METRICS_URL` const. -/
def pollRequestURL (wpbot : Option WpbotConfig) (_n : Nat) : String :=
  metricsURL wpbot

/-- List prefix test, used to express that one rendered string occurs
inside another. -/
def leadMatch : List Char → List Char → Bool
  | [], _ => true
  | _ :: _, [] => false
  | a :: as, b :: bs => a == b && leadMatch as bs

/-- Substring occurrence test on rendered strings. -/
def hasSub (needle : String) (hay : String) : Bool :=
  go needle.data hay.data
where
  go (n : List Char) : List Char → Bool
    | [] => leadMatch n []
    | c :: cs => leadMatch n (c :: cs) || go n cs

/-- A window without a title, for exercising the fallback label. -/
def sampleNoTitleWindow : Window :=
  { title := none, url := some "https://example.test", wa_ready := true, last_seen := none }

/-- A titled window. -/
def sampleTitledWindow : Window :=
  { title := some "Chats", url := none, wa_ready := false, last_seen := some "2024-01-01" }

/-- A snapshot with no profiles. -/
def sampleSnapshot : MetricsSnapshot :=
  { wa_ready := true, prof_ready := 2, prof_total := 3, queued_jobs := 5,
    running_jobs := 1, pending_targets := 0, profiles := some [] }

/-- A profile with key `alpha`. -/
def sampleProfileA : Profile :=
  { key := "alpha", ready := true, path := some "/tmp/a", pid := some 42,
    last_seen := none, windows := some [] }

/-- A profile with key `beta`. -/
def sampleProfileB : Profile :=
  { key := "beta", ready := false, path := none, pid := none,
    last_seen := none, windows := none }

/-- A snapshot whose profile keys sanitize to distinct id fragments. -/
def sampleSnapshot2 : MetricsSnapshot :=
  { wa_ready := true, prof_ready := 1, prof_total := 2, queued_jobs := 0,
    running_jobs := 0, pending_targets := 0,
    profiles := some [sampleProfileA, sampleProfileB] }

/-- Profile whose key `a.b` sanitizes to `a_b`. -/
def collisionProfileA : Profile :=
  { key := "a.b", ready := true, path := none, pid := none,
    last_seen := none, windows := none }

/-- Profile whose key `a_b` already is `a_b`: it collides with
`collisionProfileA` after sanitization. -/
def collisionProfileB : Profile :=
  { key := "a_b", ready := false, path := none, pid := none,
    last_seen := none, windows := some [] }

/-- A snapshot with two distinct profile keys whose sanitized DOM-id
fragments coincide. -/
def collisionSnap : MetricsSnapshot :=
  { wa_ready := false, prof_ready := 0, prof_total := 2, queued_jobs := 0,
    running_jobs := 0, pending_targets := 0,
    profiles := some [collisionProfileA, collisionProfileB] }

/-! Helper lemmas about the embedded operations. -/

lemma string_data_append (a b : String) : (a ++ b).data = a.data ++ b.data := by
  cases a; cases b; rfl

lemma mem_data_append_left {c : Char} (a b : String) (h : c ∈ a.data) :
    c ∈ (a ++ b).data := by
  rw [string_data_append]; exact List.mem_append_left _ h

lemma mem_dropWhile_of_mem {α : Type} (p : α → Bool) {c : α} :
    ∀ {l : List α}, c ∈ l → p c = false → c ∈ l.dropWhile p := by
  intro l hc hp
  induction l with
  | nil => cases hc
  | cons a as ih =>
    cases hpa : p a with
    | false =>
      rw [List.dropWhile_cons, hpa]
      simpa using hc
    | true =>
      rw [List.dropWhile_cons, hpa]
      simp only []
      rcases List.mem_cons.mp hc with h | h
      · subst h; rw [hp] at hpa; cases hpa
      · exact ih h

lemma jsTrim_ne_empty {s : String} (hc : '<' ∈ s.data) : jsTrim s ≠ "" := by
  intro h
  have hdata : (((s.data.dropWhile Char.isWhitespace).reverse.dropWhile
      Char.isWhitespace).reverse) = [] := congrArg String.data h
  have hw : Char.isWhitespace '<' = false := by decide
  have h1 : '<' ∈ s.data.dropWhile Char.isWhitespace :=
    mem_dropWhile_of_mem _ hc hw
  have h2 : '<' ∈ (s.data.dropWhile Char.isWhitespace).reverse :=
    List.mem_reverse.mpr h1
  have h3 : '<' ∈ (s.data.dropWhile Char.isWhitespace).reverse.dropWhile
      Char.isWhitespace := mem_dropWhile_of_mem _ h2 hw
  have h4 : '<' ∈ ((s.data.dropWhile Char.isWhitespace).reverse.dropWhile
      Char.isWhitespace).reverse := List.mem_reverse.mpr h3
  rw [hdata] at h4
  cases h4

lemma buildProfileBodyHTML_has_lt (p : Profile) :
    '<' ∈ (buildProfileBodyHTML p).data := by
  unfold buildProfileBodyHTML
  refine mem_data_append_left _ _ ?_
  refine mem_data_append_left _ _ ?_
  refine mem_data_append_left _ _ ?_
  refine mem_data_append_left _ _ ?_
  refine mem_data_append_left _ _ ?_
  refine mem_data_append_left _ _ ?_
  refine mem_data_append_left _ _ ?_
  refine mem_data_append_left _ _ ?_
  refine mem_data_append_left _ _ ?_
  refine mem_data_append_left _ _ ?_
  decide

lemma buildProfileBodyHTML_trim_ne (p : Profile) :
    jsTrim (buildProfileBodyHTML p) ≠ "" :=
  jsTrim_ne_empty (buildProfileBodyHTML_has_lt p)

lemma buildProfileBodyHTML_ne (p : Profile) : buildProfileBodyHTML p ≠ "" := by
  intro h
  have := buildProfileBodyHTML_has_lt p
  rw [h] at this
  cases this

/-! Theorems for the claims. -/

/-- C3. The key-sanitization function is total and idempotent: every
output character lies in the class `[A-Za-z0-9_-]`, applying `cssSafe`
twice equals applying it once, and a string all of whose characters lie
in the class is a fixed point. -/
theorem cssSafe_total_idempotent :
    (∀ s : String, ∀ c ∈ (cssSafe s).data, isSafeChar c = true)
    ∧ (∀ s : String, cssSafe (cssSafe s) = cssSafe s)
    ∧ (∀ s : String, (∀ c ∈ s.data, isSafeChar c = true) → cssSafe s = s) := by
  have hsafe : ∀ c, isSafeChar (sanitizeChar c) = true := by
    intro c
    unfold sanitizeChar
    split
    · assumption
    · decide
  have hfix : ∀ c, isSafeChar c = true → sanitizeChar c = c := by
    intro c h
    unfold sanitizeChar
    rw [if_pos h]
  refine ⟨?_, ?_, ?_⟩
  · intro s c hc
    rcases List.mem_map.mp hc with ⟨a, _, rfl⟩
    exact hsafe a
  · intro s
    show String.mk ((s.data.map sanitizeChar).map sanitizeChar)
        = String.mk (s.data.map sanitizeChar)
    rw [List.map_map]
    congr 1
    apply List.map_congr_left
    intro a _
    exact hfix _ (hsafe a)
  · intro s h
    show String.mk (s.data.map sanitizeChar) = s
    have : s.data.map sanitizeChar = s.data := by
      conv_rhs => rw [← List.map_id s.data]
      apply List.map_congr_left
      intro a ha
      exact hfix a (h a ha)
    rw [this]

/-- Closed witness for C3: sanitization at work on a concrete mixed key,
and the fixed-point part applied to an already-safe key. -/
theorem cssSafe_total_idempotent_witness :
    cssSafe "wa session.1" = "wa_session_1" ∧ cssSafe "wa-ok_9" = "wa-ok_9" :=
  ⟨by decide, cssSafe_total_idempotent.2.2 "wa-ok_9" (by decide)⟩

/-- C6. A snapshot whose profiles list is empty renders the empty-state
hint and no profile-item/accordion markup. -/
theorem profilesPanel_empty (data : MetricsSnapshot)
    (h : data.profiles = some []) :
    buildProfilesPanelHTML data = "<div class=\"hint\">Hiç profil yok.</div>"
    ∧ hasSub "profile-item" (buildProfilesPanelHTML data) = false := by
  have e : buildProfilesPanelHTML data
      = "<div class=\"hint\">Hiç profil yok.</div>" := by
    unfold buildProfilesPanelHTML
    rw [h]
    rfl
  exact ⟨e, by rw [e]; decide⟩

/-- Closed witness for C6 at a concrete empty snapshot. -/
theorem profilesPanel_empty_witness :
    buildProfilesPanelHTML sampleSnapshot
      = "<div class=\"hint\">Hiç profil yok.</div>"
    ∧ hasSub "profile-item" (buildProfilesPanelHTML sampleSnapshot) = false :=
  profilesPanel_empty sampleSnapshot rfl

/-- C7. A window entry with an absent title renders the fallback label
`Window N`, with `N` the 1-based index; in particular in a two-entry list
whose first entry has no title the rendered markup carries `Window 1`. -/
theorem windowTitle_fallback :
    (∀ (idx : Nat) (w : Window), w.title = none →
      windowLabel idx w = "Window " ++ toString (idx + 1))
    ∧ windowLabel 0 sampleNoTitleWindow = "Window 1"
    ∧ hasSub "Window 1"
        (renderWindowsHTML (some [sampleNoTitleWindow, sampleTitledWindow]))
        = true := by
  refine ⟨?_, by decide, by decide⟩
  intro idx w h
  unfold windowLabel
  rw [h]
  rfl

/-- Closed witness for C7 at a concrete untitled window and index. -/
theorem windowTitle_fallback_witness :
    sampleNoTitleWindow.title = none
    ∧ windowLabel 4 sampleNoTitleWindow = "Window " ++ toString (4 + 1) :=
  ⟨rfl, windowTitle_fallback.1 4 sampleNoTitleWindow rfl⟩

/-- C9. A present but falsy optional field (pid 0, empty-string path,
title, url or last_seen) renders exactly as the absent field does. -/
theorem falsy_fields_render_as_absent :
    (∀ p : Profile, buildProfileBodyHTML { p with path := some "" }
      = buildProfileBodyHTML { p with path := none })
    ∧ (∀ p : Profile, buildProfileBodyHTML { p with pid := some 0 }
      = buildProfileBodyHTML { p with pid := none })
    ∧ (∀ p : Profile, buildProfileBodyHTML { p with last_seen := some "" }
      = buildProfileBodyHTML { p with last_seen := none })
    ∧ (∀ (idx : Nat) (w : Window), windowEntryHTML idx { w with title := some "" }
      = windowEntryHTML idx { w with title := none })
    ∧ (∀ (idx : Nat) (w : Window), windowEntryHTML idx { w with url := some "" }
      = windowEntryHTML idx { w with url := none })
    ∧ (∀ (idx : Nat) (w : Window), windowEntryHTML idx { w with last_seen := some "" }
      = windowEntryHTML idx { w with last_seen := none }) :=
  ⟨fun _ => rfl, fun _ => rfl, fun _ => rfl,
   fun _ _ => rfl, fun _ _ => rfl, fun _ _ => rfl⟩

/-- C1, counterexample. The claim says every response whose status is
not 200 takes the failure path; but `res.ok` is true for the whole
success range, so a 201 response with a parseable body takes the render
path and not the error-display path. -/
theorem poll_status201_renders :
    pollOutcome (FetchEvent.response 201 (Except.ok sampleSnapshot))
      = PollOutcome.rendered sampleSnapshot
    ∧ isErroredOutcome
        (pollOutcome (FetchEvent.response 201 (Except.ok sampleSnapshot)))
      = false :=
  ⟨rfl, rfl⟩

/-- C1, amended. Every response whose status is outside the success
range 200-299 (`res.ok` false) takes the failure path: the catch block
runs with reason `HTTP <status>` and the render path is not invoked. -/
theorem nonSuccessStatus_takes_error_path (st : Nat)
    (body : Except String MetricsSnapshot) (h : resOk st = false) :
    pollOutcome (.response st body) = .errored ("HTTP " ++ toString st)
    ∧ isErroredOutcome (pollOutcome (.response st body)) = true := by
  have e : pollOutcome (.response st body) = .errored ("HTTP " ++ toString st) := by
    simp [pollOutcome, h]
  exact ⟨e, by rw [e]; rfl⟩

/-- Closed witness for the amended C1 at status 404. -/
theorem nonSuccessStatus_takes_error_path_witness :
    resOk 404 = false
    ∧ pollOutcome (.response 404 (Except.ok sampleSnapshot))
      = .errored ("HTTP " ++ toString 404) :=
  ⟨rfl, (nonSuccessStatus_takes_error_path 404 (Except.ok sampleSnapshot) rfl).1⟩

/-- C4. On any failed poll cycle (non-success status, network throw, or
JSON parse error) the live region's entire content becomes the single
error hint `Metrikler alınamadı: <reason>`; the previous content `prev`
(for example a dashboard from an earlier successful poll) is quantified
and absent from the result, so no stale markup remains. -/
theorem failed_poll_replaces_live :
    (∀ (prev m : String), liveAfterPoll prev (.networkFail m) = errorHint m)
    ∧ (∀ (prev : String) (st : Nat) (b : Except String MetricsSnapshot),
        resOk st = false →
        liveAfterPoll prev (.response st b) = errorHint ("HTTP " ++ toString st))
    ∧ (∀ (prev m : String) (st : Nat), resOk st = true →
        liveAfterPoll prev (.response st (.error m)) = errorHint m)
    ∧ (∀ (prev m : String) (e : FetchEvent), pollOutcome e = .errored m →
        liveAfterPoll prev e = errorHint m) := by
  refine ⟨fun prev m => rfl, ?_, ?_, ?_⟩
  · intro prev st b h
    simp [liveAfterPoll, pollOutcome, h]
  · intro prev m st h
    simp [liveAfterPoll, pollOutcome, h]
  · intro prev m e h
    unfold liveAfterPoll
    rw [h]

/-- Closed witness for C4: a 500 response replaces a live region that
still holds the markup of a previous successful render. -/
theorem failed_poll_replaces_live_witness :
    resOk 500 = false
    ∧ liveAfterPoll (renderAllLive sampleSnapshot)
        (.response 500 (Except.ok sampleSnapshot))
      = errorHint ("HTTP " ++ toString 500) :=
  ⟨rfl, failed_poll_replaces_live.2.1 (renderAllLive sampleSnapshot) 500
    (Except.ok sampleSnapshot) rfl⟩

/-- C8, counterexample. The claim says a present override value is used
for every poll; but the override is combined with the default by JS `||`,
so the present-but-falsy empty-string override is not used: the default
path is requested instead. -/
theorem emptyOverride_uses_default :
    pollRequestURL (some { METRICS_URL := some "" }) 0 = "/metrics"
    ∧ pollRequestURL (some { METRICS_URL := some "" }) 0 ≠ "" :=
  ⟨rfl, by decide⟩

/-- C8, amended. The endpoint URL is a module-level const fixed at
startup and identical across polls: a present non-empty override value is
used for every poll, and an absent (or empty) override makes every poll
use the default path `/metrics`. -/
theorem metrics_url_fixed :
    (∀ (w : Option WpbotConfig) (m n : Nat),
      pollRequestURL w m = pollRequestURL w n)
    ∧ (∀ n : Nat, pollRequestURL none n = "/metrics")
    ∧ (∀ n : Nat, pollRequestURL (some { METRICS_URL := none }) n = "/metrics")
    ∧ (∀ n : Nat, pollRequestURL (some { METRICS_URL := some "" }) n = "/metrics")
    ∧ (∀ (n : Nat) (s : String), s ≠ "" →
        pollRequestURL (some { METRICS_URL := some s }) n = s) := by
  refine ⟨fun w m n => rfl, fun n => rfl, fun n => rfl, fun n => rfl, ?_⟩
  intro n s h
  simp [pollRequestURL, metricsURL, h]

/-- Closed witness for the amended C8 at a concrete non-empty override. -/
theorem metrics_url_fixed_witness :
    "/custom/metrics" ≠ ""
    ∧ pollRequestURL (some { METRICS_URL := some "/custom/metrics" }) 7
      = "/custom/metrics" :=
  ⟨by decide, metrics_url_fixed.2.2.2.2 7 "/custom/metrics" (by decide)⟩

/-- A click is a no-op whenever the profile lookup by raw key fails,
whatever the body lookup found. -/
lemma clickProfileRow_noop_nokey (data : MetricsSnapshot) (bodies : List BodyEl)
    (k : String)
    (h : (jsProfiles data.profiles).find? (fun p => decide (p.key = k)) = none) :
    clickProfileRow data bodies k = bodies := by
  unfold clickProfileRow
  cases hfb : findBody bodies ("body-" ++ cssSafe k) <;> simp [hfb, h]

/-- C10. A click on a row whose data-key matches no details-body element
or no profile in the snapshot returns early: the panel state is left
completely unchanged. -/
theorem click_missing_is_noop (data : MetricsSnapshot) (bodies : List BodyEl)
    (k : String)
    (h : findBody bodies ("body-" ++ cssSafe k) = none
      ∨ (jsProfiles data.profiles).find? (fun p => decide (p.key = k)) = none) :
    clickProfileRow data bodies k = bodies := by
  rcases h with h | h
  · unfold clickProfileRow
    simp [h]
  · exact clickProfileRow_noop_nokey data bodies k h

/-- Closed witness for C10: clicking a key with no matching body element
in an empty panel changes nothing. -/
theorem click_missing_is_noop_witness :
    findBody [] ("body-" ++ cssSafe "ghost") = none
    ∧ clickProfileRow sampleSnapshot2 [] "ghost" = [] :=
  ⟨rfl, click_missing_is_noop sampleSnapshot2 [] "ghost" (Or.inl rfl)⟩

lemma string_append_left_cancel {a b c : String} (h : a ++ b = a ++ c) :
    b = c := by
  have hd := congrArg String.data h
  rw [string_data_append, string_data_append] at hd
  have he := List.append_cancel_left hd
  cases b; cases c
  cases he
  rfl

lemma findBody_append_cons (pre post : List BodyEl) (b : BodyEl) (tid : String)
    (hpre : ∀ x ∈ pre, x.id ≠ tid) (hb : b.id = tid) :
    findBody (pre ++ b :: post) tid = some b := by
  induction pre with
  | nil => simp [findBody, hb]
  | cons a as ih =>
    have ha : a.id ≠ tid := hpre a (by simp)
    rw [List.cons_append]
    rw [findBody]
    rw [if_neg ha]
    exact ih (fun x hx => hpre x (by simp [hx]))

lemma updateFirstBody_append_cons (f : BodyEl → BodyEl) (pre post : List BodyEl)
    (b : BodyEl) (tid : String)
    (hpre : ∀ x ∈ pre, x.id ≠ tid) (hb : b.id = tid) :
    updateFirstBody f (pre ++ b :: post) tid = pre ++ f b :: post := by
  induction pre with
  | nil => simp [updateFirstBody, hb]
  | cons a as ih =>
    have ha : a.id ≠ tid := hpre a (by simp)
    rw [List.cons_append]
    rw [updateFirstBody]
    rw [if_neg ha]
    rw [ih (fun x hx => hpre x (by simp [hx]))]
    rfl

/-- A click whose sanitized id hits the first matching body element, with
the profile lookup succeeding, rewrites exactly that element by
`bodyStep` and leaves every other element untouched. -/
lemma clickProfileRow_hit (data : MetricsSnapshot) (k : String) (q : Profile)
    (pre post : List BodyEl) (b : BodyEl)
    (hq : (jsProfiles data.profiles).find? (fun p => decide (p.key = k)) = some q)
    (hpre : ∀ x ∈ pre, x.id ≠ "body-" ++ cssSafe k)
    (hb : b.id = "body-" ++ cssSafe k) :
    clickProfileRow data (pre ++ b :: post) k = pre ++ bodyStep q b :: post := by
  unfold clickProfileRow
  simp only [findBody_append_cons pre post b ("body-" ++ cssSafe k) hpre hb, hq]
  exact updateFirstBody_append_cons (bodyStep q) pre post b _ hpre hb

lemma parity_flip (c : Nat) : (!decide (c % 2 = 0)) = decide ((c + 1) % 2 = 0) := by
  by_cases h : c % 2 = 0
  · have h2 : (c + 1) % 2 ≠ 0 := by omega
    simp [h, h2]
  · have h2 : (c + 1) % 2 = 0 := by omega
    simp [h, h2]

/-- Iterating clicks of one key on a built body: the content never
changes, the hidden flag follows the parity of the click count, and the
surrounding elements stay untouched. -/
lemma performClicksFrom_replicate (data : MetricsSnapshot) (k : String) (q : Profile)
    (hq : (jsProfiles data.profiles).find? (fun p => decide (p.key = k)) = some q) :
    ∀ (n : Nat) (pre post : List BodyEl) (b : BodyEl),
      (∀ x ∈ pre, x.id ≠ "body-" ++ cssSafe k) →
      b.id = "body-" ++ cssSafe k →
      jsTrim b.content ≠ "" →
      performClicksFrom data (pre ++ b :: post) (List.replicate n k)
        = pre ++ { b with hidden := if n % 2 = 0 then b.hidden else !b.hidden } :: post := by
  intro n
  induction n with
  | zero =>
    intro pre post b hpre hb hbuilt
    simp [performClicksFrom]
  | succ m ih =>
    intro pre post b hpre hb hbuilt
    rw [List.replicate_succ]
    rw [show performClicksFrom data (pre ++ b :: post) (k :: List.replicate m k)
        = performClicksFrom data (clickProfileRow data (pre ++ b :: post) k)
          (List.replicate m k) from rfl]
    rw [clickProfileRow_hit data k q pre post b hq hpre hb]
    have hstep : bodyStep q b = { b with hidden := !b.hidden } := by
      unfold bodyStep
      rw [if_neg hbuilt]
    rw [hstep]
    rw [ih pre post { b with hidden := !b.hidden } hpre hb hbuilt]
    by_cases hm : m % 2 = 0
    · have h2 : (m + 1) % 2 ≠ 0 := by omega
      simp [hm, h2]
    · have h2 : (m + 1) % 2 = 0 := by omega
      simp [hm, h2]

/-- C5. On a built, currently hidden detail body, clicking its row `n`
times only toggles the `hidden` class: the body is hidden again exactly
when `n` is even, its content is never rebuilt, and no other body element
changes. -/
theorem profile_toggle_involution (data : MetricsSnapshot) (k : String)
    (q : Profile) (pre post : List BodyEl) (b : BodyEl) (n : Nat)
    (hq : (jsProfiles data.profiles).find? (fun p => decide (p.key = k)) = some q)
    (hpre : ∀ x ∈ pre, x.id ≠ "body-" ++ cssSafe k)
    (hb : b.id = "body-" ++ cssSafe k)
    (hbuilt : jsTrim b.content ≠ "")
    (hhidden : b.hidden = true) :
    performClicksFrom data (pre ++ b :: post) (List.replicate n k)
      = pre ++ { b with hidden := decide (n % 2 = 0) } :: post := by
  rw [performClicksFrom_replicate data k q hq n pre post b hpre hb hbuilt]
  by_cases hn : n % 2 = 0
  · simp [hn, hhidden]
  · simp [hn, hhidden]

/-- Closed witness for C5: double-clicking the built alpha body returns
it to hidden and leaves the beta body untouched. -/
theorem profile_toggle_involution_witness :
    jsTrim (buildProfileBodyHTML sampleProfileA) ≠ ""
    ∧ performClicksFrom sampleSnapshot2
        ({ id := "body-alpha", content := buildProfileBodyHTML sampleProfileA,
            hidden := true }
          :: [{ id := "body-beta", content := "", hidden := true }])
        (List.replicate 2 "alpha")
      = { id := "body-alpha", content := buildProfileBodyHTML sampleProfileA,
            hidden := true }
          :: [{ id := "body-beta", content := "", hidden := true }] :=
  ⟨by decide,
    profile_toggle_involution sampleSnapshot2 "alpha" sampleProfileA []
      [{ id := "body-beta", content := "", hidden := true }]
      { id := "body-alpha", content := buildProfileBodyHTML sampleProfileA,
        hidden := true }
      2 (by decide) (by simp) (by decide) (by decide) rfl⟩

lemma profileBodyState_nonkey (done : List String) (k : String) (p : Profile)
    (h : p.key ≠ k) :
    profileBodyState (done ++ [k]) p = profileBodyState done p := by
  have hmem : (p.key ∈ done ++ [k]) ↔ p.key ∈ done := by
    simp [List.mem_append, h]
  have hcount : (done ++ [k]).count p.key = done.count p.key := by
    simp [List.count_append, List.count_singleton', h]
  simp [profileBodyState, hmem, hcount]

lemma profileBodyState_key (done : List String) (k : String) (q : Profile)
    (hqk : q.key = k) :
    bodyStep q (profileBodyState done q) = profileBodyState (done ++ [k]) q := by
  have hmem : q.key ∈ done ++ [k] := by
    simp [List.mem_append, hqk]
  have hcount : (done ++ [k]).count q.key = done.count q.key + 1 := by
    simp [List.count_append, List.count_singleton', hqk]
  by_cases hd : q.key ∈ done
  · have hbuilt : jsTrim (profileBodyState done q).content ≠ "" := by
      show jsTrim (if q.key ∈ done then buildProfileBodyHTML q else "") ≠ ""
      rw [if_pos hd]
      exact buildProfileBodyHTML_trim_ne q
    unfold bodyStep
    rw [if_neg hbuilt]
    show ({ profileBodyState done q with
        hidden := !(profileBodyState done q).hidden } : BodyEl) = _
    unfold profileBodyState
    rw [if_pos hd, if_pos hmem, hcount]
    simp [parity_flip]
  · unfold bodyStep profileBodyState
    rw [if_neg hd, if_pos hmem, hcount]
    have hz : done.count q.key = 0 := List.count_eq_zero.mpr hd
    rw [hz]
    have htr : jsTrim "" = "" := by decide
    simp [htr, parity_flip]

lemma panelState_append_nonkey (ps : List Profile) (done : List String)
    (k : String) (h : ∀ p ∈ ps, p.key ≠ k) :
    panelState ps (done ++ [k]) = panelState ps done := by
  unfold panelState
  apply List.map_congr_left
  intro p hp
  exact profileBodyState_nonkey done k p (h p hp)

lemma panelState_nil (ps : List Profile) : panelState ps [] = initBodies ps := by
  simp [panelState, initBodies, profileBodyState]

/-- One click on the characterized panel state, under pairwise-distinct
sanitized keys: the state advances by appending the clicked key. -/
lemma clickProfileRow_panelState (data : MetricsSnapshot) (ps : List Profile)
    (hps : jsProfiles data.profiles = ps) (hdist : KeyDistinct ps)
    (done : List String) (k : String) :
    clickProfileRow data (panelState ps done) k = panelState ps (done ++ [k]) := by
  cases hq : ps.find? (fun p => decide (p.key = k)) with
  | none =>
    have hnk : ∀ p ∈ ps, p.key ≠ k := by
      intro p hp
      have := List.find?_eq_none.mp hq p hp
      simpa using this
    rw [clickProfileRow_noop_nokey data _ k (by rw [hps]; exact hq)]
    rw [panelState_append_nonkey ps done k hnk]
  | some q =>
    have hqk : q.key = k := by
      have := List.find?_some hq
      simpa using this
    have hqmem : q ∈ ps := List.mem_of_find?_eq_some hq
    rcases List.append_of_mem hqmem with ⟨psl, psr, rfl⟩
    unfold KeyDistinct at hdist
    rw [List.pairwise_append] at hdist
    obtain ⟨hdl, hdr, hcross⟩ := hdist
    rw [List.pairwise_cons] at hdr
    obtain ⟨hqr, _⟩ := hdr
    have hlq : ∀ x ∈ psl, cssSafe x.key ≠ cssSafe q.key := by
      intro x hx
      exact hcross x hx q (by simp)
    have hlk : ∀ x ∈ psl, x.key ≠ k := by
      intro x hx he
      exact hlq x hx (by rw [he, hqk])
    have hrk : ∀ x ∈ psr, x.key ≠ k := by
      intro x hx he
      exact hqr x hx (by rw [hqk, he])
    have hmapl : panelState psl (done ++ [k]) = panelState psl done := by
      apply panelState_append_nonkey
      exact hlk
    have hmapr : panelState psr (done ++ [k]) = panelState psr done := by
      apply panelState_append_nonkey
      exact hrk
    have hpre : ∀ x ∈ panelState psl done, x.id ≠ "body-" ++ cssSafe k := by
      intro x hx
      rcases List.mem_map.mp hx with ⟨y, hy, rfl⟩
      intro he
      have hcs : cssSafe y.key = cssSafe k := string_append_left_cancel he
      rw [← hqk] at hcs
      exact hlq y hy hcs
    have hb : (profileBodyState done q).id = "body-" ++ cssSafe k := by
      show "body-" ++ cssSafe q.key = "body-" ++ cssSafe k
      rw [hqk]
    have hsplit : panelState (psl ++ q :: psr) done
        = panelState psl done ++ profileBodyState done q :: panelState psr done := by
      simp [panelState]
    rw [hsplit]
    rw [clickProfileRow_hit data k q (panelState psl done) (panelState psr done)
      (profileBodyState done q) (by rw [hps]; exact hq) hpre hb]
    rw [profileBodyState_key done k q hqk]
    have hsplit2 : panelState (psl ++ q :: psr) (done ++ [k])
        = panelState psl (done ++ [k]) ++ profileBodyState (done ++ [k]) q
          :: panelState psr (done ++ [k]) := by
      simp [panelState]
    rw [hsplit2, hmapl, hmapr]

/-- Folding a click sequence over the characterized panel state. -/
lemma performClicksFrom_panelState (data : MetricsSnapshot) (ps : List Profile)
    (hps : jsProfiles data.profiles = ps) (hdist : KeyDistinct ps) :
    ∀ (ks done : List String),
      performClicksFrom data (panelState ps done) ks = panelState ps (done ++ ks) := by
  intro ks
  induction ks with
  | nil =>
    intro done
    simp [performClicksFrom]
  | cons k ks ih =>
    intro done
    rw [show performClicksFrom data (panelState ps done) (k :: ks)
        = performClicksFrom data (clickProfileRow data (panelState ps done) k) ks
        from rfl]
    rw [clickProfileRow_panelState data ps hps hdist done k]
    rw [ih (done ++ [k])]
    congr 1
    simp

/-- C2, amended. Provided no two profile keys sanitize to the same
DOM-id fragment, each profile's own detail body over any click sequence
is exactly charaterized: empty until the profile's row is first clicked,
equal to the (non-empty) built content from then on — built at most
once — with later clicks toggling only the hidden class. -/
theorem panel_lazy_build (data : MetricsSnapshot)
    (hdist : KeyDistinct (jsProfiles data.profiles)) :
    (∀ ks : List String,
      performClicks data ks = panelState (jsProfiles data.profiles) ks)
    ∧ (∀ p : Profile, buildProfileBodyHTML p ≠ "") := by
  constructor
  · intro ks
    unfold performClicks
    rw [← panelState_nil (jsProfiles data.profiles)]
    rw [performClicksFrom_panelState data _ rfl hdist ks []]
    rw [List.nil_append]
  · exact buildProfileBodyHTML_ne

/-- Closed witness for the amended C2 on a two-profile snapshot with
distinct sanitized keys and a three-click sequence. -/
theorem panel_lazy_build_witness :
    KeyDistinct (jsProfiles sampleSnapshot2.profiles)
    ∧ performClicks sampleSnapshot2 ["alpha", "alpha", "beta"]
      = panelState (jsProfiles sampleSnapshot2.profiles)
          ["alpha", "alpha", "beta"] :=
  ⟨by decide, (panel_lazy_build sampleSnapshot2 (by decide)).1
    ["alpha", "alpha", "beta"]⟩

set_option maxRecDepth 8000 in
/-- C2, counterexample. With the distinct keys `a.b` and `a_b`, which
sanitize to the same fragment, the first click of profile `a_b`'s row
builds the FIRST body element of the panel (the one rendered inside
profile `a.b`'s item) while profile `a_b`'s own detail body stays empty:
the claim that a profile's body is non-empty after its row's first click
fails. -/
theorem panel_collision_shadows :
    collisionProfileB.key = "a_b"
    ∧ cssSafe collisionProfileA.key = cssSafe collisionProfileB.key
    ∧ (performClicks collisionSnap ["a_b"]).getD 1
        { id := "", content := "", hidden := true }
      = { id := "body-a_b", content := "", hidden := true }
    ∧ ((performClicks collisionSnap ["a_b"]).getD 0
        { id := "", content := "", hidden := true }).content
      = buildProfileBodyHTML collisionProfileB := by
  refine ⟨rfl, by decide, by decide, by decide⟩

end Wpbot
